import Mathlib

/-!
# Verification of the webhook receiver

A shallow embedding of `src/webhook_receiver.py`: a Flask handler that
authenticates a GitHub-style webhook POST via an HMAC-SHA1 signature carried
in the `X-Hub-Signature` header, and on success runs a `git pull` followed by
a service restart.

Bytes are modelled as `Nat`, 32-bit arithmetic as `Nat` with explicit
`% 2 ^ 32`. The two `subprocess.run` calls are modelled by passing in the
`SubprocessResult` each action would return if invoked, while the handler
records which actions were actually invoked. `hmac.compare_digest` is
modelled after CPython's constant-time `_tscmp`, together with an explicit
cost (loop-iteration) count. Python's `str.split('=')` destructuring, which
raises `ValueError` unless the split has exactly two parts, is modelled by an
`uncaught` outcome.
-/

set_option maxRecDepth 100000

namespace Webhook

/-- 32-bit mask constant. -/
def w32 : Nat := 4294967296

/-- Left-rotation of a 32-bit word represented as a `Nat`. -/
def rotl (n x : Nat) : Nat :=
  ((x <<< n) ||| ((x % w32) >>> (32 - n))) % w32

/-- Big-endian 8-byte encoding of a (bit-)length. -/
def bigEndian8 (n : Nat) : List Nat :=
  [(n >>> 56) % 256, (n >>> 48) % 256, (n >>> 40) % 256, (n >>> 32) % 256,
   (n >>> 24) % 256, (n >>> 16) % 256, (n >>> 8) % 256, n % 256]

/-- SHA-1 padding: append `0x80`, zero bytes up to 56 mod 64, then the
64-bit big-endian bit length. -/
def sha1Pad (msg : List Nat) : List Nat :=
  msg ++ [128] ++ List.replicate ((119 - msg.length % 64) % 64) 0
      ++ bigEndian8 (msg.length * 8)

/-- Split a byte list into 64-byte chunks (fuel-based so that it reduces in
the kernel; `fuel = l.length` always suffices since each step consumes at
least one byte). -/
def chunksAux : Nat → List Nat → List (List Nat)
  | _, [] => []
  | 0, _ :: _ => []
  | fuel + 1, b :: l => ((b :: l).take 64) :: chunksAux fuel ((b :: l).drop 64)

/-- Split a byte list into 64-byte chunks. -/
def chunks64 (l : List Nat) : List (List Nat) := chunksAux l.length l

/-- Pack bytes into big-endian 32-bit words. -/
def bytesToWords : List Nat → List Nat
  | a :: b :: c :: d :: rest =>
      (((a % 256) <<< 24) ||| ((b % 256) <<< 16) ||| ((c % 256) <<< 8) ||| (d % 256))
        :: bytesToWords rest
  | _ => []

/-- Extend a 16-word block to the 80-word SHA-1 message schedule, one word
per fuel step. -/
def extendSchedule : List Nat → Nat → List Nat
  | w, 0 => w
  | w, n + 1 =>
      let i := w.length
      let x := rotl 1 ((w.getD (i - 3) 0) ^^^ (w.getD (i - 8) 0) ^^^
                       (w.getD (i - 14) 0) ^^^ (w.getD (i - 16) 0))
      extendSchedule (w ++ [x]) n

/-- One SHA-1 round: `i` is the round index, `wi` the schedule word. -/
def sha1Round (st : Nat × Nat × Nat × Nat × Nat) (i wi : Nat) :
    Nat × Nat × Nat × Nat × Nat :=
  let (a, b, c, d, e) := st
  let f :=
    if i < 20 then (b &&& c) ||| ((b ^^^ 4294967295) &&& d)
    else if i < 40 then b ^^^ c ^^^ d
    else if i < 60 then (b &&& c) ||| (b &&& d) ||| (c &&& d)
    else b ^^^ c ^^^ d
  let k :=
    if i < 20 then 1518500249
    else if i < 40 then 1859775393
    else if i < 60 then 2400959708
    else 3395469782
  let temp := (rotl 5 a + f + e + k + wi) % w32
  (temp, a, rotl 30 b, c, d)

/-- Process one 64-byte chunk, updating the five-word state. -/
def sha1Chunk (h : Nat × Nat × Nat × Nat × Nat) (chunk : List Nat) :
    Nat × Nat × Nat × Nat × Nat :=
  let ws := extendSchedule (bytesToWords chunk) 64
  let (a, b, c, d, e) :=
    (ws.enum.foldl (fun st p => sha1Round st p.1 p.2) h)
  let (h0, h1, h2, h3, h4) := h
  ((h0 + a) % w32, (h1 + b) % w32, (h2 + c) % w32, (h3 + d) % w32, (h4 + e) % w32)

/-- Big-endian bytes of a 32-bit word. -/
def wordBytes (x : Nat) : List Nat :=
  [(x >>> 24) % 256, (x >>> 16) % 256, (x >>> 8) % 256, x % 256]

/-- SHA-1 of a byte list, as the 20 digest bytes. -/
def sha1 (msg : List Nat) : List Nat :=
  let (h0, h1, h2, h3, h4) :=
    (chunks64 (sha1Pad msg)).foldl sha1Chunk
      (1732584193, 4023233417, 2562383102, 271733878, 3285377520)
  wordBytes h0 ++ wordBytes h1 ++ wordBytes h2 ++ wordBytes h3 ++ wordBytes h4

/-- HMAC-SHA1 (RFC 2104) of a message under a key, as 20 digest bytes.
This models `hmac.new(SECRET, msg=body, digestmod='sha1').digest()`. -/
def hmacSha1 (key msg : List Nat) : List Nat :=
  let key0 := if 64 < key.length then sha1 key else key
  let keyP := key0 ++ List.replicate (64 - key0.length) 0
  let ipad := keyP.map (fun b => b ^^^ 54)
  let opad := keyP.map (fun b => b ^^^ 92)
  sha1 (opad ++ sha1 (ipad ++ msg))

/-- Lowercase hex character of a nibble, as Python's `%x` digit: code
48–57 for `0`–`9`, then 97–102 for `a`–`f`. -/
def hexChar (n : Nat) : Char :=
  if n % 16 < 10 then Char.ofNat (48 + n % 16) else Char.ofNat (87 + n % 16)

/-- The sixteen lowercase hex characters. -/
def hexAlphabet : List Char := (List.range 16).map hexChar

/-- Two lowercase hex characters of a byte. -/
def byteToHex (b : Nat) : List Char := [hexChar (b / 16), hexChar b]

/-- Lowercase hex string of a byte list, as Python's `.hexdigest()`. -/
def hexdigest (bs : List Nat) : String := String.mk ((bs.map byteToHex).flatten)

/-- `hmac.new(secret, msg=body, digestmod='sha1').hexdigest()`: the lowercase
hex HMAC-SHA1 digest of `body` under `secret`. -/
def hmacSha1Hex (secret body : List Nat) : String := hexdigest (hmacSha1 secret body)

/-- The byte values of a string, one per character (Python strings compared
by `hmac.compare_digest` are ASCII, where code point = byte). -/
def strBytes (s : String) : List Nat := s.data.map Char.toNat

/-- CPython's `_tscmp` (the core of `hmac.compare_digest`): compares `a`
against `b` by OR-ing byte XORs over a loop of exactly `b.length`
iterations, with no early exit; a length mismatch only forces the result
bit to 1. Returns the boolean result together with the number of loop
iterations performed (the cost). -/
def tscmp (a b : List Nat) : Bool × Nat :=
  let result0 : Nat := if a.length = b.length then 0 else 1
  let left := if a.length = b.length then a else b
  ((((left.zip b).foldl (fun acc p => acc ||| (p.1 ^^^ p.2)) result0) == 0), b.length)

/-- `hmac.compare_digest` on two ASCII strings: the boolean result of
`_tscmp` over their bytes. -/
def compare_digest (a b : String) : Bool := (tscmp (strBytes a) (strBytes b)).1

/-- The number of comparison-loop iterations `hmac.compare_digest` performs
on the given inputs. -/
def compareDigestCost (a b : String) : Nat := (tscmp (strBytes a) (strBytes b)).2

/-- Whether a Python string is ASCII; `hmac.compare_digest` on `str`
arguments requires both to be ASCII and raises `TypeError` otherwise. -/
def isAsciiStr (s : String) : Bool := s.data.all (fun c => c.toNat < 128)

/-- Python's `str.split(sep)` for a single-character separator, on the
character list of the string. -/
def splitChar (sep : Char) : List Char → List (List Char)
  | [] => [[]]
  | c :: rest =>
      if c = sep then [] :: splitChar sep rest
      else
        match splitChar sep rest with
        | h :: t => (c :: h) :: t
        | [] => [[c]]

/-- Python's `signature.split('=')`-style split, producing strings. -/
def pySplit (sep : Char) (s : String) : List String :=
  (splitChar sep s.data).map String.mk

/-- An inbound HTTP request: its header list (name, value) and raw body
bytes (`request.data`). -/
structure HttpRequest where
  headers : List (String × String)
  data : List Nat
deriving DecidableEq

/-- ASCII lowercasing of a string, character by character (Python's
`str.lower` restricted to ASCII, which is all header names use). -/
def strLower (s : String) : String := String.mk (s.data.map Char.toLower)

/-- Werkzeug's case-insensitive header lookup,
`request.headers.get(name)`: the first header whose name matches
case-insensitively. -/
def headersGet (hs : List (String × String)) (name : String) : Option String :=
  (hs.find? (fun p => strLower p.1 == strLower name)).map Prod.snd

/-- The result of a `subprocess.run(..., capture_output=True, text=True)`
call: exit code, captured stdout and stderr. -/
structure SubprocessResult where
  returncode : Int
  stdout : String
  stderr : String
deriving DecidableEq

/-- What the handler invocation produces at the HTTP layer: a response with
a status (`abort(n)` carries no handler-chosen body, the success return
carries `'OK'`), or an exception escaping the handler uncaught. -/
inductive HandlerOutcome where
  | response (status : Nat) (body : Option String)
  | uncaught (msg : String)
deriving DecidableEq

/-- The observable trace of one handler invocation: the outcome, whether
each external action was invoked, and the emitted log messages in order. -/
structure HandlerTrace where
  outcome : HandlerOutcome
  gitPullInvoked : Bool
  restartInvoked : Bool
  logs : List String
deriving DecidableEq

/-- The `webhook` view function of `src/webhook_receiver.py`, line by line.
`secret` is the module-level `SECRET`; `git_pull` and `restart_service` are
the results the two `subprocess.run` calls would return if reached. -/
def webhook (secret : List Nat) (req : HttpRequest)
    (git_pull restart_service : SubprocessResult) : HandlerTrace :=
  let logs0 := ["Received a request on /webhook"]
  match headersGet req.headers "X-Hub-Signature" with
  | none =>
      { outcome := .response 403 none, gitPullInvoked := false,
        restartInvoked := false,
        logs := logs0 ++ ["Error: No signature found in the request headers."] }
  | some sigHeader =>
      match pySplit '=' sigHeader with
      | [sha_name, signature] =>
          if sha_name ≠ "sha1" then
            { outcome := .response 501 none, gitPullInvoked := false,
              restartInvoked := false,
              logs := logs0 ++
                ["Error: Unsupported SHA type " ++ sha_name ++ "."] }
          else
            let mac := hmacSha1Hex secret req.data
            if ¬ (isAsciiStr mac && isAsciiStr signature) then
              { outcome := .uncaught
                  "TypeError: comparing strings with non-ASCII characters is not supported",
                gitPullInvoked := false, restartInvoked := false, logs := logs0 }
            else if ¬ compare_digest mac signature then
              { outcome := .response 403 none, gitPullInvoked := false,
                restartInvoked := false,
                logs := logs0 ++ ["Error: Signature mismatch."] }
            else
              let logs1 := logs0 ++ ["Attempting to pull the latest code...",
                "Git Pull Output:\n" ++ git_pull.stdout]
              if git_pull.returncode ≠ 0 then
                { outcome := .response 500 none, gitPullInvoked := true,
                  restartInvoked := false,
                  logs := logs1 ++
                    ["Error during git pull: " ++ git_pull.stderr] }
              else
                let logs2 := logs1 ++
                  ["Attempting to restart the Gunicorn service...",
                   "Service Restart Output:\n" ++ restart_service.stdout]
                if restart_service.returncode ≠ 0 then
                  { outcome := .response 500 none, gitPullInvoked := true,
                    restartInvoked := true,
                    logs := logs2 ++
                      ["Error restarting Gunicorn service: " ++
                        restart_service.stderr] }
                else
                  { outcome := .response 200 (some "OK"), gitPullInvoked := true,
                    restartInvoked := true,
                    logs := logs2 ++ ["Webhook executed successfully."] }
      | parts =>
          { outcome := .uncaught
              (if parts.length < 2 then
                "ValueError: not enough values to unpack (expected 2)"
               else "ValueError: too many values to unpack (expected 2)"),
            gitPullInvoked := false, restartInvoked := false, logs := logs0 }

/-- The module-level `SECRET = b'your_webhook_secret'` as bytes. -/
def SECRET : List Nat := (String.toList "your_webhook_secret").map Char.toNat

/-- The HTTP status of an outcome, `none` when an exception escaped the
handler so that no handler-chosen status exists. -/
def HandlerOutcome.statusCode : HandlerOutcome → Option Nat
  | .response s _ => some s
  | .uncaught _ => none

/-- The algorithm tag a request's signature header declares: the part of
the header value before the first `=` (empty when the header is absent). -/
def requestAlgTag (req : HttpRequest) : String :=
  match headersGet req.headers "X-Hub-Signature" with
  | none => ""
  | some v => (pySplit '=' v).headD ""

/-- Modelled from the spec: the status mapping of §6 / P5 — missing
signature header → 403, unsupported algorithm tag → 501, wrong digest →
403, action failure → 500, all-pass → 200. A header that is not of the
spec's `<algorithm>=<hex-digest>` shape (not exactly one `=`, or a
non-ASCII signature value) belongs to none of the five classes and maps to
`none`. -/
def statusMapping (secret : List Nat) (req : HttpRequest)
    (git_pull restart_service : SubprocessResult) : Option Nat :=
  match headersGet req.headers "X-Hub-Signature" with
  | none => some 403
  | some v =>
      match pySplit '=' v with
      | [tag, sig] =>
          if tag ≠ "sha1" then some 501
          else if ¬ isAsciiStr sig then none
          else if sig ≠ hmacSha1Hex secret req.data then some 403
          else if git_pull.returncode ≠ 0 then some 500
          else if restart_service.returncode ≠ 0 then some 500
          else some 200
      | _ => none

/-- Modelled from the spec: the log content §4.1 allows — receipt, header
presence, the algorithm tag, match/mismatch outcome, and the captured
output of the external actions; never the secret or the computed digest. -/
def logAllowedBySpec (req : HttpRequest)
    (git_pull restart_service : SubprocessResult) (m : String) : Prop :=
  m = "Received a request on /webhook" ∨
  m = "Error: No signature found in the request headers." ∨
  m = "Error: Unsupported SHA type " ++ requestAlgTag req ++ "." ∨
  m = "Error: Signature mismatch." ∨
  m = "Attempting to pull the latest code..." ∨
  m = "Git Pull Output:\n" ++ git_pull.stdout ∨
  m = "Error during git pull: " ++ git_pull.stderr ∨
  m = "Attempting to restart the Gunicorn service..." ∨
  m = "Service Restart Output:\n" ++ restart_service.stdout ∨
  m = "Error restarting Gunicorn service: " ++ restart_service.stderr ∨
  m = "Webhook executed successfully."

/-- Scenario A secret `b's3cr3t'`. -/
def secretA : List Nat := (String.toList "s3cr3t").map Char.toNat

/-- Scenario A body `b'hello'`. -/
def bodyA : List Nat := (String.toList "hello").map Char.toNat

/-- A successful external action (exit code 0). -/
def okRun : SubprocessResult := ⟨0, "", ""⟩

/-- A failing external action (exit code 1). -/
def failRun : SubprocessResult := ⟨1, "", "fatal: error"⟩

/-- Scenario A request: the correct `sha1=<digest>` header for `bodyA`
under `secretA` (digest checked against CPython's
`hmac.new(b's3cr3t', b'hello', 'sha1').hexdigest()`). -/
def reqA : HttpRequest :=
  ⟨[("X-Hub-Signature", "sha1=21fbddf58a7c80f7ba7b0cd12b9783da067fd4e2")], bodyA⟩

/-- Scenario C request: 40 zero characters as the digest. -/
def reqC : HttpRequest :=
  ⟨[("X-Hub-Signature", "sha1=0000000000000000000000000000000000000000")], bodyA⟩

/-- A request with no signature header at all (Scenario E). -/
def reqE : HttpRequest := ⟨[("Content-Type", "application/json")], bodyA⟩

/-! ## Lemmas about the constant-time comparison -/

lemma lor_eq_zero_iff (a b : Nat) : a ||| b = 0 ↔ a = 0 ∧ b = 0 := by
  constructor
  · intro h
    have key : ∀ i, a.testBit i = false ∧ b.testBit i = false := by
      intro i
      have h1 : (a ||| b).testBit i = false := by rw [h]; exact Nat.zero_testBit i
      rw [Nat.testBit_lor] at h1
      simpa using h1
    refine ⟨Nat.eq_of_testBit_eq fun i => ?_, Nat.eq_of_testBit_eq fun i => ?_⟩
    · rw [(key i).1, Nat.zero_testBit]
    · rw [(key i).2, Nat.zero_testBit]
  · rintro ⟨rfl, rfl⟩
    rfl

lemma foldl_lor_xor_eq_zero (l : List (Nat × Nat)) (r : Nat) :
    l.foldl (fun acc p => acc ||| (p.1 ^^^ p.2)) r = 0 ↔
      r = 0 ∧ ∀ p ∈ l, p.1 = p.2 := by
  induction l generalizing r with
  | nil => simp
  | cons x xs ih =>
      simp only [List.foldl_cons, ih, List.mem_cons]
      rw [lor_eq_zero_iff, Nat.xor_eq_zero]
      constructor
      · rintro ⟨⟨hr, hx⟩, hxs⟩
        exact ⟨hr, fun p hp => hp.elim (fun h => h ▸ hx) (hxs p)⟩
      · rintro ⟨hr, hall⟩
        exact ⟨⟨hr, hall x (.inl rfl)⟩, fun p hp => hall p (.inr hp)⟩

lemma zip_self_pairs (a : List Nat) : ∀ p ∈ a.zip a, p.1 = p.2 := by
  induction a with
  | nil => simp
  | cons x xs ih =>
      simp only [List.zip_cons_cons, List.mem_cons]
      rintro p (rfl | hp)
      · rfl
      · exact ih p hp

lemma zip_pairs_eq (a b : List Nat) (hl : a.length = b.length)
    (h : ∀ p ∈ a.zip b, p.1 = p.2) : a = b := by
  induction a generalizing b with
  | nil =>
      cases b with
      | nil => rfl
      | cons y ys => simp at hl
  | cons x xs ih =>
      cases b with
      | nil => simp at hl
      | cons y ys =>
          simp only [List.length_cons, Nat.succ_inj] at hl
          simp only [List.zip_cons_cons, List.mem_cons] at h
          have hx : x = y := h (x, y) (.inl rfl)
          have hxs : xs = ys := ih ys hl fun p hp => h p (.inr hp)
          rw [hx, hxs]

/-- Result correctness of the constant-time comparison: `_tscmp` accepts
exactly when the two byte lists are equal. -/
lemma tscmp_fst_iff (a b : List Nat) : (tscmp a b).1 = true ↔ a = b := by
  by_cases hl : a.length = b.length
  · have hrw : (tscmp a b).1 =
        ((a.zip b).foldl (fun acc p => acc ||| (p.1 ^^^ p.2)) 0 == 0) := by
      simp only [tscmp, hl, if_pos]
    rw [hrw, beq_iff_eq, foldl_lor_xor_eq_zero]
    constructor
    · rintro ⟨-, h⟩
      exact zip_pairs_eq a b hl h
    · rintro rfl
      exact ⟨rfl, zip_self_pairs a⟩
  · have hrw : (tscmp a b).1 =
        ((b.zip b).foldl (fun acc p => acc ||| (p.1 ^^^ p.2)) 1 == 0) := by
      simp only [tscmp, hl, if_neg, if_false]
    rw [hrw, beq_iff_eq, foldl_lor_xor_eq_zero]
    constructor
    · rintro ⟨h1, -⟩
      exact absurd h1 one_ne_zero
    · rintro rfl
      exact absurd rfl hl

lemma strBytes_inj (a b : String) (h : strBytes a = strBytes b) : a = b := by
  apply String.ext
  have inj : Function.Injective Char.toNat := by
    intro c d hcd
    rw [← Char.ofNat_toNat c, ← Char.ofNat_toNat d, hcd]
  exact List.map_injective_iff.mpr inj h

/-- `hmac.compare_digest` on strings accepts exactly the equal strings. -/
lemma compare_digest_iff (a b : String) : compare_digest a b = true ↔ a = b := by
  unfold compare_digest
  rw [tscmp_fst_iff]
  constructor
  · exact strBytes_inj a b
  · rintro rfl
    rfl

/-! ## Lemmas about Python's split and the hex digest -/

lemma splitChar_of_not_mem (sep : Char) (l : List Char) (h : sep ∉ l) :
    splitChar sep l = [l] := by
  induction l with
  | nil => rfl
  | cons c rest ih =>
      have hc : ¬ c = sep := fun hcs => h (hcs ▸ List.mem_cons_self c rest)
      have hrest : sep ∉ rest := fun hm => h (List.mem_cons_of_mem c hm)
      simp only [splitChar, hc, if_false, ih hrest]

lemma splitChar_append (sep : Char) (pre post : List Char) (h : sep ∉ pre) :
    splitChar sep (pre ++ sep :: post) = pre :: splitChar sep post := by
  induction pre with
  | nil => simp [splitChar]
  | cons c rest ih =>
      have hc : ¬ c = sep := fun hcs => h (hcs ▸ List.mem_cons_self c rest)
      have hrest : sep ∉ rest := fun hm => h (List.mem_cons_of_mem c hm)
      simp only [List.cons_append, splitChar, hc, if_false, List.append_eq, ih hrest]

/-- A header value `sha1=<D>` with a separator-free `D` splits into exactly
the two parts `["sha1", D]`, as Python's `signature.split('=')` does. -/
lemma pySplit_tag_digest (D : String) (h : '=' ∉ D.data) :
    pySplit '=' ("sha1=" ++ D) = ["sha1", D] := by
  unfold pySplit
  have hdata : ("sha1=" ++ D).data = ['s', 'h', 'a', '1'] ++ '=' :: D.data := by
    rw [String.data_append]
    rfl
  rw [hdata, splitChar_append '=' ['s', 'h', 'a', '1'] D.data (by decide),
      splitChar_of_not_mem '=' D.data h]
  rfl

lemma hexChar_mem (n : Nat) : hexChar n ∈ hexAlphabet := by
  have hmm : hexChar (n % 16) = hexChar n := by
    unfold hexChar
    have h2 : n % 16 % 16 = n % 16 := by omega
    rw [h2]
  rw [← hmm]
  exact List.mem_map_of_mem hexChar
    (List.mem_range.mpr (Nat.mod_lt n (by norm_num)))

lemma mem_hexdigest (bs : List Nat) (c : Char) (hc : c ∈ (hexdigest bs).data) :
    c ∈ hexAlphabet := by
  unfold hexdigest at hc
  rw [show (String.mk ((bs.map byteToHex).flatten)).data =
        (bs.map byteToHex).flatten from rfl, List.mem_flatten] at hc
  obtain ⟨l, hl, hcl⟩ := hc
  rw [List.mem_map] at hl
  obtain ⟨b, -, rfl⟩ := hl
  unfold byteToHex at hcl
  simp only [List.mem_cons, List.not_mem_nil, or_false] at hcl
  rcases hcl with rfl | rfl
  · exact hexChar_mem _
  · exact hexChar_mem _

/-- The computed hex digest never contains `=`. -/
lemma digest_no_eq_char (secret body : List Nat) :
    '=' ∉ (hmacSha1Hex secret body).data := fun h =>
  absurd (mem_hexdigest _ '=' h) (by decide)

lemma hexAlphabet_ascii : ∀ c ∈ hexAlphabet, c.toNat < 128 := by decide

lemma hexAlphabet_lower_fixed : ∀ c ∈ hexAlphabet, Char.toLower c = c := by decide

/-- The computed hex digest is ASCII. -/
lemma digest_ascii (secret body : List Nat) :
    isAsciiStr (hmacSha1Hex secret body) = true := by
  unfold isAsciiStr
  rw [List.all_eq_true]
  intro c hc
  exact decide_eq_true (hexAlphabet_ascii c (mem_hexdigest _ c hc))

lemma map_eq_self {α : Type} (l : List α) (f : α → α) (h : ∀ x ∈ l, f x = x) :
    l.map f = l := by
  induction l with
  | nil => rfl
  | cons x xs ih =>
      rw [List.map_cons, h x (List.mem_cons_self x xs),
        ih fun y hy => h y (List.mem_cons_of_mem x hy)]

/-- The computed hex digest is lowercase: ASCII lowercasing fixes it. -/
lemma digest_lower_fixed (secret body : List Nat) :
    strLower (hmacSha1Hex secret body) = hmacSha1Hex secret body := by
  have hdata : (hmacSha1Hex secret body).data.map Char.toLower =
      (hmacSha1Hex secret body).data :=
    map_eq_self _ _ fun c hc => hexAlphabet_lower_fixed c (mem_hexdigest _ c hc)
  unfold strLower
  rw [hdata]

lemma toLower_hex_ascii (c : Char) (h : Char.toLower c ∈ hexAlphabet) :
    c.toNat < 128 := by
  unfold Char.toLower at h
  dsimp only at h
  by_cases hc : c.toNat ≥ 65 ∧ c.toNat ≤ 90
  · omega
  · rw [if_neg hc] at h
    exact hexAlphabet_ascii c h

lemma toLower_ne_eq_char (c : Char) (h : Char.toLower c ∈ hexAlphabet) :
    c ≠ '=' := by
  rintro rfl
  revert h
  decide

/-! ## Branch lemmas for the handler -/

lemma webhook_missing_header (secret : List Nat) (req : HttpRequest)
    (gp rs : SubprocessResult)
    (h : headersGet req.headers "X-Hub-Signature" = none) :
    webhook secret req gp rs =
      { outcome := .response 403 none, gitPullInvoked := false,
        restartInvoked := false,
        logs := ["Received a request on /webhook",
                 "Error: No signature found in the request headers."] } := by
  unfold webhook
  rw [h]
  rfl

lemma webhook_wrong_digest (secret : List Nat) (req : HttpRequest)
    (gp rs : SubprocessResult) (D : String)
    (hsig : headersGet req.headers "X-Hub-Signature" = some ("sha1=" ++ D))
    (hD : '=' ∉ D.data) (hascii : isAsciiStr D = true)
    (hne : D ≠ hmacSha1Hex secret req.data) :
    webhook secret req gp rs =
      { outcome := .response 403 none, gitPullInvoked := false,
        restartInvoked := false,
        logs := ["Received a request on /webhook",
                 "Error: Signature mismatch."] } := by
  have hcd : compare_digest (hmacSha1Hex secret req.data) D = false := by
    rw [← Bool.not_eq_true, compare_digest_iff]
    exact fun h => hne h.symm
  unfold webhook
  rw [hsig]
  simp only []
  rw [pySplit_tag_digest D hD]
  simp only [ne_eq, digest_ascii, hascii, hcd, Bool.and_self,
    not_true_eq_false, Bool.not_eq_true, if_false, reduceIte]
  rfl

lemma webhook_verified_ok (secret : List Nat) (req : HttpRequest)
    (gp rs : SubprocessResult)
    (hsig : headersGet req.headers "X-Hub-Signature" =
      some ("sha1=" ++ hmacSha1Hex secret req.data))
    (hgp : gp.returncode = 0) (hrs : rs.returncode = 0) :
    webhook secret req gp rs =
      { outcome := .response 200 (some "OK"), gitPullInvoked := true,
        restartInvoked := true,
        logs := ["Received a request on /webhook",
                 "Attempting to pull the latest code...",
                 "Git Pull Output:\n" ++ gp.stdout,
                 "Attempting to restart the Gunicorn service...",
                 "Service Restart Output:\n" ++ rs.stdout,
                 "Webhook executed successfully."] } := by
  have hcd : compare_digest (hmacSha1Hex secret req.data)
      (hmacSha1Hex secret req.data) = true :=
    (compare_digest_iff _ _).mpr rfl
  unfold webhook
  rw [hsig]
  simp only []
  rw [pySplit_tag_digest _ (digest_no_eq_char secret req.data)]
  simp only [ne_eq, digest_ascii, hcd, Bool.and_self, not_true_eq_false,
    Bool.not_eq_true, if_false, reduceIte, hgp, hrs]
  rfl

lemma pySplit_ne_nil (sep : Char) (s : String) : pySplit sep s ≠ [] := by
  unfold pySplit
  intro hx
  have hne : splitChar sep s.data ≠ [] := by
    cases hs : s.data with
    | nil => simp [splitChar]
    | cons c l =>
        unfold splitChar
        split
        · exact List.cons_ne_nil _ _
        · split
          · exact List.cons_ne_nil _ _
          · exact List.cons_ne_nil _ _
  exact hne (List.map_eq_nil_iff.mp hx)

lemma webhook_split_one (secret : List Nat) (req : HttpRequest)
    (gp rs : SubprocessResult) (v t : String)
    (hsig : headersGet req.headers "X-Hub-Signature" = some v)
    (hsp : pySplit '=' v = [t]) :
    webhook secret req gp rs =
      { outcome := .uncaught "ValueError: not enough values to unpack (expected 2)",
        gitPullInvoked := false, restartInvoked := false,
        logs := ["Received a request on /webhook"] } := by
  unfold webhook
  rw [hsig]
  dsimp only
  rw [hsp]
  rfl

lemma webhook_split_many (secret : List Nat) (req : HttpRequest)
    (gp rs : SubprocessResult) (v t sg x : String) (xs : List String)
    (hsig : headersGet req.headers "X-Hub-Signature" = some v)
    (hsp : pySplit '=' v = t :: sg :: x :: xs) :
    webhook secret req gp rs =
      { outcome := .uncaught "ValueError: too many values to unpack (expected 2)",
        gitPullInvoked := false, restartInvoked := false,
        logs := ["Received a request on /webhook"] } := by
  unfold webhook
  rw [hsig]
  dsimp only
  rw [hsp]
  dsimp only
  rw [if_neg (by simp only [List.length_cons]; omega : ¬ (t :: sg :: x :: xs).length < 2)]

lemma webhook_tag_mismatch (secret : List Nat) (req : HttpRequest)
    (gp rs : SubprocessResult) (v t sg : String)
    (hsig : headersGet req.headers "X-Hub-Signature" = some v)
    (hsp : pySplit '=' v = [t, sg]) (ht : t ≠ "sha1") :
    webhook secret req gp rs =
      { outcome := .response 501 none, gitPullInvoked := false,
        restartInvoked := false,
        logs := ["Received a request on /webhook",
                 "Error: Unsupported SHA type " ++ t ++ "."] } := by
  unfold webhook
  rw [hsig]
  dsimp only
  rw [hsp]
  dsimp only
  rw [if_pos ht]
  rfl

lemma webhook_non_ascii (secret : List Nat) (req : HttpRequest)
    (gp rs : SubprocessResult) (v sg : String)
    (hsig : headersGet req.headers "X-Hub-Signature" = some v)
    (hsp : pySplit '=' v = ["sha1", sg]) (hA : isAsciiStr sg = false) :
    webhook secret req gp rs =
      { outcome := .uncaught
          "TypeError: comparing strings with non-ASCII characters is not supported",
        gitPullInvoked := false, restartInvoked := false,
        logs := ["Received a request on /webhook"] } := by
  unfold webhook
  rw [hsig]
  dsimp only
  rw [hsp]
  simp only [ne_eq, not_true_eq_false, Bool.not_eq_true, if_false, reduceIte,
    digest_ascii, hA, Bool.true_and, Bool.and_false]

lemma webhook_sig_mismatch (secret : List Nat) (req : HttpRequest)
    (gp rs : SubprocessResult) (v sg : String)
    (hsig : headersGet req.headers "X-Hub-Signature" = some v)
    (hsp : pySplit '=' v = ["sha1", sg]) (hA : isAsciiStr sg = true)
    (hd : sg ≠ hmacSha1Hex secret req.data) :
    webhook secret req gp rs =
      { outcome := .response 403 none, gitPullInvoked := false,
        restartInvoked := false,
        logs := ["Received a request on /webhook",
                 "Error: Signature mismatch."] } := by
  have hcd : compare_digest (hmacSha1Hex secret req.data) sg = false := by
    rw [← Bool.not_eq_true, compare_digest_iff]
    exact fun hx => hd hx.symm
  unfold webhook
  rw [hsig]
  dsimp only
  rw [hsp]
  simp only [ne_eq, not_true_eq_false, Bool.not_eq_true, if_false, reduceIte,
    digest_ascii, hA, Bool.and_self, hcd]
  rfl

lemma webhook_git_fail (secret : List Nat) (req : HttpRequest)
    (gp rs : SubprocessResult) (v sg : String)
    (hsig : headersGet req.headers "X-Hub-Signature" = some v)
    (hsp : pySplit '=' v = ["sha1", sg])
    (hd : sg = hmacSha1Hex secret req.data) (hgp : gp.returncode ≠ 0) :
    webhook secret req gp rs =
      { outcome := .response 500 none, gitPullInvoked := true,
        restartInvoked := false,
        logs := ["Received a request on /webhook",
                 "Attempting to pull the latest code...",
                 "Git Pull Output:\n" ++ gp.stdout,
                 "Error during git pull: " ++ gp.stderr] } := by
  have hcd : compare_digest (hmacSha1Hex secret req.data) sg = true :=
    (compare_digest_iff _ _).mpr hd.symm
  have hA : isAsciiStr sg = true := hd ▸ digest_ascii secret req.data
  unfold webhook
  rw [hsig]
  dsimp only
  rw [hsp]
  simp only [ne_eq, not_true_eq_false, Bool.not_eq_true, if_false, reduceIte,
    digest_ascii, hA, Bool.and_self, hcd, hgp, not_false_eq_true, if_true]
  rfl

lemma webhook_restart_fail (secret : List Nat) (req : HttpRequest)
    (gp rs : SubprocessResult) (v sg : String)
    (hsig : headersGet req.headers "X-Hub-Signature" = some v)
    (hsp : pySplit '=' v = ["sha1", sg])
    (hd : sg = hmacSha1Hex secret req.data) (hgp : gp.returncode = 0)
    (hrs : rs.returncode ≠ 0) :
    webhook secret req gp rs =
      { outcome := .response 500 none, gitPullInvoked := true,
        restartInvoked := true,
        logs := ["Received a request on /webhook",
                 "Attempting to pull the latest code...",
                 "Git Pull Output:\n" ++ gp.stdout,
                 "Attempting to restart the Gunicorn service...",
                 "Service Restart Output:\n" ++ rs.stdout,
                 "Error restarting Gunicorn service: " ++ rs.stderr] } := by
  have hcd : compare_digest (hmacSha1Hex secret req.data) sg = true :=
    (compare_digest_iff _ _).mpr hd.symm
  have hA : isAsciiStr sg = true := hd ▸ digest_ascii secret req.data
  unfold webhook
  rw [hsig]
  dsimp only
  rw [hsp]
  simp only [ne_eq, not_true_eq_false, Bool.not_eq_true, if_false, reduceIte,
    digest_ascii, hA, Bool.and_self, hcd, hgp, hrs, not_false_eq_true, if_true]
  rfl

lemma webhook_all_ok (secret : List Nat) (req : HttpRequest)
    (gp rs : SubprocessResult) (v sg : String)
    (hsig : headersGet req.headers "X-Hub-Signature" = some v)
    (hsp : pySplit '=' v = ["sha1", sg])
    (hd : sg = hmacSha1Hex secret req.data) (hgp : gp.returncode = 0)
    (hrs : rs.returncode = 0) :
    webhook secret req gp rs =
      { outcome := .response 200 (some "OK"), gitPullInvoked := true,
        restartInvoked := true,
        logs := ["Received a request on /webhook",
                 "Attempting to pull the latest code...",
                 "Git Pull Output:\n" ++ gp.stdout,
                 "Attempting to restart the Gunicorn service...",
                 "Service Restart Output:\n" ++ rs.stdout,
                 "Webhook executed successfully."] } := by
  have hcd : compare_digest (hmacSha1Hex secret req.data) sg = true :=
    (compare_digest_iff _ _).mpr hd.symm
  have hA : isAsciiStr sg = true := hd ▸ digest_ascii secret req.data
  unfold webhook
  rw [hsig]
  dsimp only
  rw [hsp]
  simp only [ne_eq, not_true_eq_false, Bool.not_eq_true, if_false, reduceIte,
    digest_ascii, hA, Bool.and_self, hcd, hgp, hrs]
  rfl

/-! ## The claims -/

/-- Claim C1: for every secret and raw body, a request whose
`X-Hub-Signature` header is `sha1=` followed by the lowercase hex HMAC-SHA1
digest of the body under the secret passes verification, and when both
external actions exit with code 0 the handler responds 200 with body `OK`,
both actions having been invoked. -/
theorem C1_valid_signature_succeeds (secret : List Nat) (req : HttpRequest)
    (git_pull restart_service : SubprocessResult)
    (hsig : headersGet req.headers "X-Hub-Signature" =
      some ("sha1=" ++ hmacSha1Hex secret req.data))
    (hgp : git_pull.returncode = 0) (hrs : restart_service.returncode = 0) :
    (webhook secret req git_pull restart_service).outcome =
        .response 200 (some "OK") ∧
      (webhook secret req git_pull restart_service).gitPullInvoked = true ∧
      (webhook secret req git_pull restart_service).restartInvoked = true := by
  rw [webhook_verified_ok secret req git_pull restart_service hsig hgp hrs]
  exact ⟨rfl, rfl, rfl⟩

/-- Claim C1 witness: Scenario A — body `hello`, secret `s3cr3t`, the
correct digest in the header, both actions succeeding. -/
theorem C1_witness :
    (webhook secretA reqA okRun okRun).outcome = .response 200 (some "OK") ∧
      (webhook secretA reqA okRun okRun).gitPullInvoked = true ∧
      (webhook secretA reqA okRun okRun).restartInvoked = true :=
  C1_valid_signature_succeeds secretA reqA okRun okRun (by decide) rfl rfl

/-- Claim C2: the digest comparison is constant-time — the number of
comparison-loop iterations of `compare_digest` depends only on the length
of the provided signature value, hence is the same for any two provided
values of equal length, independently of where (or whether) a first
mismatching byte occurs: there is no early exit on mismatch. -/
theorem C2_comparison_constant_time (expected provided other : String)
    (h : (strBytes provided).length = (strBytes other).length) :
    compareDigestCost expected provided = compareDigestCost expected other ∧
      compareDigestCost expected provided = (strBytes provided).length :=
  ⟨h, rfl⟩

/-- Claim C2 witness: two same-length candidate signatures, one mismatching
at the first byte and one at the last, cost the same. -/
theorem C2_witness :
    (strBytes "x1fbddf58a7c80f7ba7b0cd12b9783da067fd4e2").length =
        (strBytes "21fbddf58a7c80f7ba7b0cd12b9783da067fd4x2").length ∧
      compareDigestCost "21fbddf58a7c80f7ba7b0cd12b9783da067fd4e2"
          "x1fbddf58a7c80f7ba7b0cd12b9783da067fd4e2" =
        compareDigestCost "21fbddf58a7c80f7ba7b0cd12b9783da067fd4e2"
          "21fbddf58a7c80f7ba7b0cd12b9783da067fd4x2" :=
  ⟨by decide,
   (C2_comparison_constant_time "21fbddf58a7c80f7ba7b0cd12b9783da067fd4e2"
      "x1fbddf58a7c80f7ba7b0cd12b9783da067fd4e2"
      "21fbddf58a7c80f7ba7b0cd12b9783da067fd4x2" (by decide)).1⟩

/-- Claim C3: wherever the spec's five-class status mapping (missing
signature header → 403, unsupported algorithm tag → 501, wrong digest →
403, action failure → 500, all-pass → 200) assigns a status to a request,
the handler responds with exactly that status; a header that is not of the
`<tag>=<value>` shape with a single `=` and an ASCII value falls outside
the five classes (see the claim on the header-splitting exception). -/
theorem C3_status_mapping_respected (secret : List Nat) (req : HttpRequest)
    (git_pull restart_service : SubprocessResult) (c : Nat)
    (h : statusMapping secret req git_pull restart_service = some c) :
    (webhook secret req git_pull restart_service).outcome.statusCode = some c := by
  unfold statusMapping at h
  have hcond : ¬¬(true = true) := fun hx => hx rfl
  rcases hh : headersGet req.headers "X-Hub-Signature" with _ | v
  · rw [hh] at h
    dsimp only at h
    injection h with h
    subst h
    rw [webhook_missing_header secret req git_pull restart_service hh]
    rfl
  · rw [hh] at h
    dsimp only at h
    rcases hsp : pySplit '=' v with _ | ⟨t, _ | ⟨sg, _ | ⟨x, xs⟩⟩⟩
    · exact absurd hsp (pySplit_ne_nil '=' v)
    · rw [hsp] at h
      dsimp only at h
      exact Option.noConfusion h
    · rw [hsp] at h
      dsimp only at h
      by_cases ht : t = "sha1"
      · subst ht
        rw [if_neg (fun hx : "sha1" ≠ "sha1" => hx rfl)] at h
        cases hA : isAsciiStr sg
        · rw [hA] at h
          simp at h
        · rw [hA] at h
          rw [if_neg hcond] at h
          by_cases hd : sg = hmacSha1Hex secret req.data
          · rw [if_neg (fun hx => hx hd)] at h
            by_cases hgp : git_pull.returncode = 0
            · rw [if_neg (fun hx => hx hgp)] at h
              by_cases hrs : restart_service.returncode = 0
              · rw [if_neg (fun hx => hx hrs)] at h
                injection h with h
                subst h
                rw [webhook_all_ok secret req git_pull restart_service v sg
                  hh hsp hd hgp hrs]
                rfl
              · rw [if_pos hrs] at h
                injection h with h
                subst h
                rw [webhook_restart_fail secret req git_pull restart_service
                  v sg hh hsp hd hgp hrs]
                rfl
            · rw [if_pos hgp] at h
              injection h with h
              subst h
              rw [webhook_git_fail secret req git_pull restart_service v sg
                hh hsp hd hgp]
              rfl
          · rw [if_pos hd] at h
            injection h with h
            subst h
            rw [webhook_sig_mismatch secret req git_pull restart_service v sg
              hh hsp hA hd]
            rfl
      · rw [if_pos ht] at h
        injection h with h
        subst h
        rw [webhook_tag_mismatch secret req git_pull restart_service v t sg
          hh hsp ht]
        rfl
    · rw [hsp] at h
      dsimp only at h
      exact Option.noConfusion h

/-- Claim C3 witness: the all-pass request of Scenario A is mapped to 200
by the spec mapping and answered 200 by the handler. -/
theorem C3_witness :
    statusMapping secretA reqA okRun okRun = some 200 ∧
      (webhook secretA reqA okRun okRun).outcome.statusCode = some 200 :=
  ⟨by decide, C3_status_mapping_respected secretA reqA okRun okRun 200 (by decide)⟩

/-- Claim C4 counterexample: the digest obtained from the correct one for
body `hello` under secret `s3cr3t` by a single-bit change (`'9'`, byte
`0x39`, to `'='`, byte `0x3D`) differs from the correct digest, yet the
handler does not reject it with 403: the header split raises an uncaught
`ValueError`. -/
theorem C4_counterexample :
    "21fbddf58a7c80f7ba7b0cd12b=783da067fd4e2" ≠ hmacSha1Hex secretA bodyA ∧
      (webhook secretA
          ⟨[("X-Hub-Signature",
             "sha1=21fbddf58a7c80f7ba7b0cd12b=783da067fd4e2")], bodyA⟩
          okRun okRun).outcome =
        .uncaught "ValueError: too many values to unpack (expected 2)" ∧
      (webhook secretA
          ⟨[("X-Hub-Signature",
             "sha1=21fbddf58a7c80f7ba7b0cd12b=783da067fd4e2")], bodyA⟩
          okRun okRun).outcome ≠ .response 403 none := by
  refine ⟨by decide, by decide, by decide⟩

/-- Claim C4 (amended): for every body and secret, a provided digest made
of ASCII characters and containing no `=` that differs from the correct
hex HMAC-SHA1 digest is rejected with status 403 and neither external
action is invoked. (The `=`-free and ASCII restrictions are forced: a
digest containing `=` — reachable by a single-bit change of a `9` — makes
the header split raise instead of rejecting.) -/
theorem C4_wrong_digest_rejected (secret : List Nat) (req : HttpRequest)
    (git_pull restart_service : SubprocessResult) (D : String)
    (hsig : headersGet req.headers "X-Hub-Signature" = some ("sha1=" ++ D))
    (hD : '=' ∉ D.data) (hascii : isAsciiStr D = true)
    (hne : D ≠ hmacSha1Hex secret req.data) :
    (webhook secret req git_pull restart_service).outcome =
        .response 403 none ∧
      (webhook secret req git_pull restart_service).gitPullInvoked = false ∧
      (webhook secret req git_pull restart_service).restartInvoked = false := by
  rw [webhook_wrong_digest secret req git_pull restart_service D hsig hD
    hascii hne]
  exact ⟨rfl, rfl, rfl⟩

/-- Claim C4 witness: Scenario C — 40 zero characters as the digest is
rejected with 403 and no action is invoked. -/
theorem C4_witness :
    (webhook secretA reqC okRun okRun).outcome = .response 403 none ∧
      (webhook secretA reqC okRun okRun).gitPullInvoked = false ∧
      (webhook secretA reqC okRun okRun).restartInvoked = false :=
  C4_wrong_digest_rejected secretA reqC okRun okRun
    "0000000000000000000000000000000000000000"
    (by decide) (by decide) (by decide) (by decide)

/-- Claim C5: for every request, if the update action would exit non-zero,
the restart action is never invoked; and whenever the update action was
actually invoked (i.e. the request passed signature verification) the
handler responds with status 500. -/
theorem C5_update_failure_skips_restart (secret : List Nat)
    (req : HttpRequest) (git_pull restart_service : SubprocessResult)
    (hgit : git_pull.returncode ≠ 0) :
    (webhook secret req git_pull restart_service).restartInvoked = false ∧
      ((webhook secret req git_pull restart_service).gitPullInvoked = true →
        (webhook secret req git_pull restart_service).outcome =
          .response 500 none) := by
  unfold webhook
  dsimp only
  split
  case _ => exact ⟨rfl, fun h => by cases h⟩
  case _ sigHeader heq =>
    split
    case _ sha_name signature heq2 =>
      split
      case _ => exact ⟨rfl, fun h => by cases h⟩
      case _ hsha =>
        split
        case _ => exact ⟨rfl, fun h => by cases h⟩
        case _ hascii =>
          split
          case _ => exact ⟨rfl, fun h => by cases h⟩
          case _ hcmp => exact ⟨rfl, fun h => rfl⟩
    case _ parts heq2 => exact ⟨rfl, fun h => by cases h⟩

/-- Claim C5 witness: Scenario D — valid signature, update action exiting
1: restart is not invoked and the response is 500. -/
theorem C5_witness :
    (webhook secretA reqA failRun okRun).restartInvoked = false ∧
      ((webhook secretA reqA failRun okRun).gitPullInvoked = true →
        (webhook secretA reqA failRun okRun).outcome = .response 500 none) :=
  C5_update_failure_skips_restart secretA reqA failRun okRun (by decide)

/-- Claim C7: a request whose signature header does not contain exactly one
`=` makes the header-splitting step raise an uncaught `ValueError` — for
the value `sha1` (no `=`) and the value `sha1=abc=def` (two) — instead of
producing any of the rejection statuses of the error taxonomy. -/
theorem C7_malformed_header_uncaught :
    ((webhook SECRET ⟨[("X-Hub-Signature", "sha1")], bodyA⟩
          okRun okRun).outcome =
        .uncaught "ValueError: not enough values to unpack (expected 2)" ∧
      (webhook SECRET ⟨[("X-Hub-Signature", "sha1")], bodyA⟩
          okRun okRun).outcome.statusCode = none) ∧
    ((webhook SECRET ⟨[("X-Hub-Signature", "sha1=abc=def")], bodyA⟩
          okRun okRun).outcome =
        .uncaught "ValueError: too many values to unpack (expected 2)" ∧
      (webhook SECRET ⟨[("X-Hub-Signature", "sha1=abc=def")], bodyA⟩
          okRun okRun).outcome.statusCode = none) := by
  refine ⟨⟨by decide, by decide⟩, ⟨by decide, by decide⟩⟩

/-- Claim C8: the digest comparison is an exact match against the
lowercase hex encoding of the computed HMAC-SHA1: an uppercase or
mixed-case rendering of the correct digest (one whose ASCII lowercasing is
the correct digest but which differs from it) is rejected with 403 and no
action is invoked. -/
theorem C8_case_sensitive_comparison (secret : List Nat) (req : HttpRequest)
    (git_pull restart_service : SubprocessResult) (D : String)
    (hsig : headersGet req.headers "X-Hub-Signature" = some ("sha1=" ++ D))
    (hlow : strLower D = hmacSha1Hex secret req.data)
    (hne : D ≠ hmacSha1Hex secret req.data) :
    (webhook secret req git_pull restart_service).outcome =
        .response 403 none ∧
      (webhook secret req git_pull restart_service).gitPullInvoked = false ∧
      (webhook secret req git_pull restart_service).restartInvoked = false := by
  have hmap : D.data.map Char.toLower = (hmacSha1Hex secret req.data).data := by
    have h2 := congrArg String.data hlow
    rw [← h2]
    rfl
  have hmem : ∀ c ∈ D.data, Char.toLower c ∈ hexAlphabet := by
    intro c hc
    have hmem2 : Char.toLower c ∈ (hmacSha1Hex secret req.data).data := by
      rw [← hmap]
      exact List.mem_map_of_mem Char.toLower hc
    exact mem_hexdigest _ _ hmem2
  have hD : '=' ∉ D.data := fun h => toLower_ne_eq_char '=' (hmem '=' h) rfl
  have hascii : isAsciiStr D = true := by
    unfold isAsciiStr
    rw [List.all_eq_true]
    intro c hc
    exact decide_eq_true (toLower_hex_ascii c (hmem c hc))
  rw [webhook_wrong_digest secret req git_pull restart_service D hsig hD
    hascii hne]
  exact ⟨rfl, rfl, rfl⟩

/-- Claim C8 witness: the correct digest for `hello` under `s3cr3t`
written in uppercase hex is rejected with 403 and no action runs. -/
theorem C8_witness :
    (webhook secretA
        ⟨[("X-Hub-Signature",
           "sha1=21FBDDF58A7C80F7BA7B0CD12B9783DA067FD4E2")], bodyA⟩
        okRun okRun).outcome = .response 403 none ∧
      (webhook secretA
          ⟨[("X-Hub-Signature",
             "sha1=21FBDDF58A7C80F7BA7B0CD12B9783DA067FD4E2")], bodyA⟩
          okRun okRun).gitPullInvoked = false ∧
      (webhook secretA
          ⟨[("X-Hub-Signature",
             "sha1=21FBDDF58A7C80F7BA7B0CD12B9783DA067FD4E2")], bodyA⟩
          okRun okRun).restartInvoked = false :=
  C8_case_sensitive_comparison secretA
    ⟨[("X-Hub-Signature",
       "sha1=21FBDDF58A7C80F7BA7B0CD12B9783DA067FD4E2")], bodyA⟩
    okRun okRun "21FBDDF58A7C80F7BA7B0CD12B9783DA067FD4E2"
    (by decide) (by decide) (by decide)

/-- Claim C9: the handler consults only the `X-Hub-Signature` header: a
request in whose headers that name (case-insensitively) does not occur —
whatever other headers, such as `X-Hub-Signature-256`, it carries — is
rejected with 403 with no action invoked, producing exactly the trace of a
request with no headers at all. -/
theorem C9_only_xhub_signature_header (secret : List Nat)
    (req : HttpRequest) (git_pull restart_service : SubprocessResult)
    (h : headersGet req.headers "X-Hub-Signature" = none) :
    webhook secret req git_pull restart_service =
      { outcome := .response 403 none, gitPullInvoked := false,
        restartInvoked := false,
        logs := ["Received a request on /webhook",
                 "Error: No signature found in the request headers."] } ∧
    webhook secret req git_pull restart_service =
      webhook secret ⟨[], req.data⟩ git_pull restart_service := by
  rw [webhook_missing_header secret req git_pull restart_service h,
    webhook_missing_header secret ⟨[], req.data⟩ git_pull restart_service rfl]
  exact ⟨rfl, rfl⟩

/-- Claim C9 witness: a correct digest sent under `X-Hub-Signature-256`
only is treated exactly like a request with no signature header. -/
theorem C9_witness :
    webhook secretA
        ⟨[("X-Hub-Signature-256",
           "sha1=21fbddf58a7c80f7ba7b0cd12b9783da067fd4e2")], bodyA⟩
        okRun okRun =
      { outcome := .response 403 none, gitPullInvoked := false,
        restartInvoked := false,
        logs := ["Received a request on /webhook",
                 "Error: No signature found in the request headers."] } ∧
    webhook secretA
        ⟨[("X-Hub-Signature-256",
           "sha1=21fbddf58a7c80f7ba7b0cd12b9783da067fd4e2")], bodyA⟩
        okRun okRun =
      webhook secretA ⟨[], bodyA⟩ okRun okRun :=
  C9_only_xhub_signature_header secretA
    ⟨[("X-Hub-Signature-256",
       "sha1=21fbddf58a7c80f7ba7b0cd12b9783da067fd4e2")], bodyA⟩
    okRun okRun (by decide)

/-- Claim C6: every request rejected for a missing signature header (403),
an unsupported algorithm tag (501), or a signature mismatch (403) triggers
neither the update action nor the restart action. -/
theorem C6_rejection_invokes_no_action (secret : List Nat)
    (req : HttpRequest) (git_pull restart_service : SubprocessResult)
    (h : (webhook secret req git_pull restart_service).outcome =
          .response 403 none ∨
        (webhook secret req git_pull restart_service).outcome =
          .response 501 none) :
    (webhook secret req git_pull restart_service).gitPullInvoked = false ∧
      (webhook secret req git_pull restart_service).restartInvoked = false := by
  rcases hh : headersGet req.headers "X-Hub-Signature" with _ | v
  · rw [webhook_missing_header secret req git_pull restart_service hh]
    exact ⟨rfl, rfl⟩
  · rcases hsp : pySplit '=' v with _ | ⟨t, _ | ⟨sg, _ | ⟨x, xs⟩⟩⟩
    · exact absurd hsp (pySplit_ne_nil '=' v)
    · rw [webhook_split_one secret req git_pull restart_service v t hh hsp]
      exact ⟨rfl, rfl⟩
    · by_cases ht : t = "sha1"
      · subst ht
        cases hA : isAsciiStr sg
        · rw [webhook_non_ascii secret req git_pull restart_service v sg hh hsp hA]
          exact ⟨rfl, rfl⟩
        · by_cases hd : sg = hmacSha1Hex secret req.data
          · by_cases hgp : git_pull.returncode = 0
            · by_cases hrs : restart_service.returncode = 0
              · rw [webhook_all_ok secret req git_pull restart_service v sg
                  hh hsp hd hgp hrs] at h
                simp at h
              · rw [webhook_restart_fail secret req git_pull restart_service
                  v sg hh hsp hd hgp hrs] at h
                simp at h
            · rw [webhook_git_fail secret req git_pull restart_service v sg
                hh hsp hd hgp] at h
              simp at h
          · rw [webhook_sig_mismatch secret req git_pull restart_service v sg
              hh hsp hA hd]
            exact ⟨rfl, rfl⟩
      · rw [webhook_tag_mismatch secret req git_pull restart_service v t sg
          hh hsp ht]
        exact ⟨rfl, rfl⟩
    · rw [webhook_split_many secret req git_pull restart_service v t sg x xs hh hsp]
      exact ⟨rfl, rfl⟩

/-- Claim C6 witness: Scenario E — a request with no signature header is
rejected and neither action is invoked. -/
theorem C6_witness :
    (webhook secretA reqE okRun okRun).gitPullInvoked = false ∧
      (webhook secretA reqE okRun okRun).restartInvoked = false :=
  C6_rejection_invokes_no_action secretA reqE okRun okRun (Or.inl (by decide))

/-- Claim C10: every log message the handler emits, in every branch, is
one of the fixed receipt/outcome messages, the unsupported-tag message
built from the request's algorithm tag, or a captured-output message built
from the external actions' stdout/stderr — never the secret or the
computed digest value. -/
theorem C10_logs_limited_to_allowed (secret : List Nat) (req : HttpRequest)
    (git_pull restart_service : SubprocessResult) (m : String)
    (hm : m ∈ (webhook secret req git_pull restart_service).logs) :
    logAllowedBySpec req git_pull restart_service m := by
  unfold logAllowedBySpec
  rcases hh : headersGet req.headers "X-Hub-Signature" with _ | v
  · rw [webhook_missing_header secret req git_pull restart_service hh] at hm
    simp only [List.mem_cons, List.not_mem_nil, or_false] at hm
    rcases hm with rfl | rfl <;> simp
  · rcases hsp : pySplit '=' v with _ | ⟨t, _ | ⟨sg, _ | ⟨x, xs⟩⟩⟩
    · exact absurd hsp (pySplit_ne_nil '=' v)
    · rw [webhook_split_one secret req git_pull restart_service v t hh hsp] at hm
      simp only [List.mem_cons, List.not_mem_nil, or_false] at hm
      rcases hm with rfl
      simp
    · have htag : requestAlgTag req = t := by
        unfold requestAlgTag
        rw [hh]
        dsimp only
        rw [hsp]
        rfl
      by_cases ht : t = "sha1"
      · subst ht
        cases hA : isAsciiStr sg
        · rw [webhook_non_ascii secret req git_pull restart_service v sg
            hh hsp hA] at hm
          simp only [List.mem_cons, List.not_mem_nil, or_false] at hm
          rcases hm with rfl
          simp
        · by_cases hd : sg = hmacSha1Hex secret req.data
          · by_cases hgp : git_pull.returncode = 0
            · by_cases hrs : restart_service.returncode = 0
              · rw [webhook_all_ok secret req git_pull restart_service v sg
                  hh hsp hd hgp hrs] at hm
                simp only [List.mem_cons, List.not_mem_nil, or_false] at hm
                rcases hm with rfl | rfl | rfl | rfl | rfl | rfl <;> simp
              · rw [webhook_restart_fail secret req git_pull restart_service
                  v sg hh hsp hd hgp hrs] at hm
                simp only [List.mem_cons, List.not_mem_nil, or_false] at hm
                rcases hm with rfl | rfl | rfl | rfl | rfl | rfl <;> simp
            · rw [webhook_git_fail secret req git_pull restart_service v sg
                hh hsp hd hgp] at hm
              simp only [List.mem_cons, List.not_mem_nil, or_false] at hm
              rcases hm with rfl | rfl | rfl | rfl <;> simp
          · rw [webhook_sig_mismatch secret req git_pull restart_service v sg
              hh hsp hA hd] at hm
            simp only [List.mem_cons, List.not_mem_nil, or_false] at hm
            rcases hm with rfl | rfl <;> simp
      · rw [webhook_tag_mismatch secret req git_pull restart_service v t sg
          hh hsp ht] at hm
        simp only [List.mem_cons, List.not_mem_nil, or_false] at hm
        rcases hm with rfl | rfl <;> simp [htag]
    · rw [webhook_split_many secret req git_pull restart_service v t sg x xs
        hh hsp] at hm
      simp only [List.mem_cons, List.not_mem_nil, or_false] at hm
      rcases hm with rfl
      simp

/-- Claim C10 witness: the receipt message of a no-header request is among
the allowed log contents. -/
theorem C10_witness :
    logAllowedBySpec reqE okRun okRun "Received a request on /webhook" :=
  C10_logs_limited_to_allowed secretA reqE okRun okRun
    "Received a request on /webhook" (by decide)

end Webhook
